import Mathlib

/-!
Verification of the remote command execution layer of the `apcommand`
repository: the `NonLocalConnection` channel (prefix assembly and command
forwarding, `src/apcommand/connections/nonlocalconnection.py`) and the
telnet session/output layer (`src/apcommand/connections/telnetconnection.py`).

Python attribute state is modelled as an explicit record; property getters
that cache (mutate `self`) are modelled as functions returning a value
together with the updated record.  Python `None` becomes `Option.none`.
-/

namespace Apcommand

/-- `EMPTY_STRING = ''` from nonlocalconnection.py; also `EOF = EMPTY_STRING`. -/
def EMPTY_STRING : String := ""

/-- `EOF = ''` (both modules define the end-of-stream sentinel as the empty string). -/
def EOF : String := ""

/-- `SPACE = ' '` from nonlocalconnection.py. -/
def SPACE : String := " "

/--
The mutable attributes of `NonLocalConnection` that take part in prefix
assembly: `_command_prefix`, `_library_path`, `_path` and the cache
`_prefix`.  Each is `None` (unset) or a stored string.
-/
structure Conn where
  cmdPfxR : Option String
  libraryPathR : Option String
  pathR : Option String
  pfxR : Option String
deriving Repr, DecidableEq

/--
The `command_prefix` property getter: if `self._command_prefix is None` it
is set to the empty string; the stored value is returned.
-/
def Conn.getCmdPfx (c : Conn) : String × Conn :=
  match c.cmdPfxR with
  | none => (EMPTY_STRING, { c with cmdPfxR := some EMPTY_STRING })
  | some p => (p, c)

/-- Python `str.strip()`: drop whitespace from both ends of the string. -/
def pyStrip (s : String) : String :=
  ⟨((s.data.dropWhile Char.isWhitespace).reverse.dropWhile Char.isWhitespace).reverse⟩

/--
The `command_prefix` setter: only when `len(prefix)` is non-zero does it
reset the `_prefix` cache and store `prefix.strip() + SPACE`; an empty
argument leaves the state entirely unchanged.
-/
def Conn.setCmdPfx (c : Conn) (p : String) : Conn :=
  if p.length ≠ 0 then
    { c with pfxR := none, cmdPfxR := some (pyStrip p ++ SPACE) }
  else
    c

/-- The `library_path` property getter, defaulting `None` to the empty string. -/
def Conn.getLibraryPath (c : Conn) : String × Conn :=
  match c.libraryPathR with
  | none => (EMPTY_STRING, { c with libraryPathR := some EMPTY_STRING })
  | some p => (p, c)

/--
The `library_path` setter: always resets the `_prefix` cache; a non-`None`
argument `path` stores `"export LD_LIBRARY_PATH={path}:$LD_LIBRARY_PATH;"`,
and `None` stores `None`.
-/
def Conn.setLibraryPath (c : Conn) (p : Option String) : Conn :=
  { c with
    pfxR := none,
    libraryPathR :=
      match p with
      | some v => some ("export LD_LIBRARY_PATH=" ++ v ++ ":$LD_LIBRARY_PATH;")
      | none => none }

/-- The `path` property getter, defaulting `None` to the empty string. -/
def Conn.getPath (c : Conn) : String × Conn :=
  match c.pathR with
  | none => (EMPTY_STRING, { c with pathR := some EMPTY_STRING })
  | some p => (p, c)

/--
The `path` setter: always resets the `_prefix` cache; a non-`None` argument
`path` stores `"PATH={path}:$PATH;"`, and `None` stores `None`.
-/
def Conn.setPath (c : Conn) (p : Option String) : Conn :=
  { c with
    pfxR := none,
    pathR :=
      match p with
      | some v => some ("PATH=" ++ v ++ ":$PATH;")
      | none => none }

/--
The `prefix` property getter: when the `_prefix` cache is `None` it is
recomputed as `self.path + self.library_path + self.command_prefix` (each a
caching getter in turn) and stored; otherwise the cached value is returned.
-/
def Conn.getPfx (c : Conn) : String × Conn :=
  match c.pfxR with
  | some p => (p, c)
  | none =>
    let pc1 := c.getPath
    let pc2 := pc1.2.getLibraryPath
    let pc3 := pc2.2.getCmdPfx
    let v := pc1.1 ++ pc2.1 ++ pc3.1
    (v, { pc3.2 with pfxR := some v })

/--
The prefix-relevant part of the `NonLocalConnection` constructor: all four
stores begin `None`, then the `command_prefix`, `path` and `library_path`
setters run in that order on the constructor arguments, and `_prefix` is
reset to `None`.
-/
def Conn.init (cp : String) (p lp : Option String) : Conn :=
  let c0 : Conn := ⟨none, none, none, none⟩
  let c1 := c0.setCmdPfx cp
  let c2 := c1.setPath p
  { c2.setLibraryPath lp with pfxR := none }

/-- What a set/unset PATH addition contributes to the assembled prefix. -/
def pathPart : Option String → String
  | some v => "PATH=" ++ v ++ ":$PATH;"
  | none => EMPTY_STRING

/-- What a set/unset LIBRARY-PATH addition contributes to the assembled prefix. -/
def libPart : Option String → String
  | some w => "export LD_LIBRARY_PATH=" ++ w ++ ":$LD_LIBRARY_PATH;"
  | none => EMPTY_STRING

/-- What a set/unset command-prefix contributes to the assembled prefix. -/
def cmdPart : Option String → String
  | some x => pyStrip x ++ SPACE
  | none => EMPTY_STRING

/--
A fresh connection (constructed with the default empty command-prefix and
unset path settings) on which each of the three settings is applied at most
once: `none` means the setting is left at its constructed default.
-/
def applySettings (pv lv cv : Option String) : Conn :=
  let c0 := Conn.init EMPTY_STRING none none
  let c1 := match pv with
            | some v => c0.setPath (some v)
            | none => c0
  let c2 := match lv with
            | some w => c1.setLibraryPath (some w)
            | none => c1
  match cv with
  | some x => c2.setCmdPfx x
  | none => c2

theorem length_ne_zero_of_ne_empty (s : String) (h : s ≠ "") : s.length ≠ 0 := by
  intro hlen
  exact h (String.ext (List.length_eq_zero.mp hlen))

/--
`_procedure_call`: prepends `self.prefix` (a caching property read) to the
command and invokes `_main` with the command, arguments and timeout.
`_main` is abstract in `NonLocalConnection`, so it is a parameter here.
-/
def procedureCall {α : Type} (main : String → String → Option Nat → α)
    (c : Conn) (command arguments : String) (timeout : Option Nat) : α × Conn :=
  let pc := c.getPfx
  (main (pc.1 ++ command) arguments timeout, pc.2)

/--
`__getattr__`: attribute lookup for a name with no real attribute returns a
closure that forwards to `_procedure_call` with the attribute name as the
command.  The method body has no failure path at all, which the `Except`
result records: it is always `ok`.
-/
def getattrDispatch {α : Type} (main : String → String → Option Nat → α)
    (c : Conn) (command : String) :
    Except String (String → Option Nat → α × Conn) :=
  Except.ok (fun arguments timeout => procedureCall main c command arguments timeout)

/-- `__call__(command, arguments, timeout)`: a pass-through to `_procedure_call`. -/
def dunderCall {α : Type} (main : String → String → Option Nat → α)
    (c : Conn) (command arguments : String) (timeout : Option Nat) : α × Conn :=
  procedureCall main c command arguments timeout

/-- `SPACER = '{0} {1}'` of telnetconnection.py applied to command and arguments. -/
def SPACER_format (command arguments : String) : String :=
  command ++ " " ++ arguments

/-- The command text `TelnetConnection._main` hands to `client.exec_command`. -/
def telnetMainExecText (command arguments : String) : String :=
  SPACER_format command arguments

/--
The text reaching the session exec primitive when a command is issued
through the channel: `_procedure_call` prepends the assembled prefix and
`TelnetConnection._main` joins command and arguments with `SPACER`.
-/
def telnetExecText (c : Conn) (command arguments : String) (timeout : Option Nat) :
    String × Conn :=
  procedureCall (fun cmd args _t => telnetMainExecText cmd args) c command arguments timeout

/-- `NEWLINE = '\n'` from telnetconnection.py. -/
def NEWLINE : String := "\n"

/-- Python `str.rstrip('\n')`: drop trailing `'\n'` characters, and only those. -/
def pyRstripNl (s : String) : String :=
  ⟨(s.data.reverse.dropWhile (· = '\n')).reverse⟩

/-- `TelnetAdapter.writeline`: the byte sequence written to the transport is
`message.rstrip(NEWLINE) + NEWLINE`. -/
def writeline (message : String) : String :=
  pyRstripNl message ++ NEWLINE

/--
One scripted transport event, as observed by `telnetlib.Telnet.expect` run
with the pattern list `[end_of_line, prompt]`: a match of the line ending
(index 0, the matched text being the line up to and including its ending),
a match of the prompt (index 1), or an elapsed wait with no match (index
-1, carrying whatever text was read so far, which `expect` consumes).
-/
inductive TEvent
  | line (text : String)
  | promptMatch (text : String)
  | timeout (sofar : String)
deriving Repr, DecidableEq

/-- The `TelnetOutput` state: its `finished` flag plus the scripted
transport the client will deliver; an exhausted script behaves as a silent
transport whose every wait elapses with nothing read. -/
structure TelnetOutput where
  finished : Bool
  events : List TEvent
deriving Repr, DecidableEq

/-- `TelnetOutput.__init__`: `self.finished = False` with the given client. -/
def TelnetOutput.init (events : List TEvent) : TelnetOutput :=
  ⟨false, events⟩

/-- `self.client.expect(self.endings, timeout)`: deliver the next scripted
event as `(match index, matched text)` and consume it. -/
def clientExpect (s : TelnetOutput) : (Int × String) × TelnetOutput :=
  match s.events with
  | [] => (((-1 : Int), EMPTY_STRING), s)
  | e :: rest =>
    (match e with
     | .line t => (((0 : Int), t) : Int × String)
     | .promptMatch t => ((1 : Int), t)
     | .timeout t => ((-1 : Int), t),
     { s with events := rest })

/--
`TelnetOutput.readline`: run `client.expect` (this happens before the
`finished` check, exactly as in the source), then: if `finished`, return
`EOF`; if the match index equals `line_ending_index` (0), return the
matched text; otherwise set `finished` and return `EOF`.  The numeric
timeout argument only bounds the wait and is not itself observable, so the
model keeps just the outcome of the wait (the scripted event).
-/
def readline (s : TelnetOutput) : String × TelnetOutput :=
  let rs := clientExpect s
  if rs.2.finished then (EOF, rs.2)
  else if rs.1.1 = 0 then (rs.1.2, rs.2)
  else (EOF, { rs.2 with finished := true })

/-- `client.expect` never touches the `finished` flag. -/
theorem clientExpect_finished (s : TelnetOutput) :
    ((clientExpect s).2).finished = s.finished := by
  obtain ⟨fin, evs⟩ := s
  cases evs with
  | nil => rfl
  | cons e rest => cases e <;> rfl

/-- Termination measure for the `readlines` while-loop: each call either
consumes a scripted event or turns on `finished` and ends the loop. -/
def TelnetOutput.mu (s : TelnetOutput) : Nat :=
  2 * s.events.length + (if s.finished then 0 else 1)

/-- A `readline` that does not return `EOF` strictly decreases the measure. -/
theorem readline_mu_lt (s : TelnetOutput) (h : (readline s).1 ≠ EOF) :
    ((readline s).2).mu < s.mu := by
  obtain ⟨fin, evs⟩ := s
  cases evs with
  | nil =>
    exfalso
    apply h
    cases fin <;> rfl
  | cons e rest =>
    cases e with
    | line t =>
      cases fin with
      | false =>
        simp [readline, clientExpect, TelnetOutput.mu, Nat.mul_succ]
      | true => exact absurd rfl h
    | promptMatch t => cases fin <;> exact absurd rfl h
    | timeout t => cases fin <;> exact absurd rfl h

/--
`TelnetOutput.readlines`: the while-loop `line = None; while line != EOF:
line = self.readline(); lines.append(line)`, returning the accumulated
list together with the final state (the source mutates `self`).
-/
def readlines (s : TelnetOutput) : List String × TelnetOutput :=
  if h : (readline s).1 = EOF then ([(readline s).1], (readline s).2)
  else
    ((readline s).1 :: (readlines (readline s).2).1, (readlines (readline s).2).2)
termination_by s.mu
decreasing_by all_goals exact readline_mu_lt s h

/-- The `readlines` loop, unfolded one step. -/
theorem readlines_eq (s : TelnetOutput) :
    readlines s =
      if (readline s).1 = EOF then ([(readline s).1], (readline s).2)
      else ((readline s).1 :: (readlines (readline s).2).1,
            (readlines (readline s).2).2) := by
  rw [readlines]
  split <;> rfl

/-- `readline` applied `n` times (tracking only the state). -/
def readlineIter : Nat → TelnetOutput → TelnetOutput
  | 0, s => s
  | n + 1, s => readlineIter n (readline s).2

/-- A scripted transport that emits each of `ls` followed by the line
ending `eol`, then the prompt `pr`. -/
def lineScript (ls : List String) (eol pr : String) : List TEvent :=
  ls.map (fun l => TEvent.line (l ++ eol)) ++ [TEvent.promptMatch pr]

theorem append_ne_empty_of_right_ne_empty (a b : String) (hb : b ≠ "") :
    a ++ b ≠ "" := by
  intro h
  apply hb
  have : a.data ++ b.data = [] := congrArg String.data h
  exact String.ext (List.append_eq_nil.mp this).2

/-- Draining a line script returns the lines (with their endings) in order,
followed by the end-of-stream sentinel, and leaves the source `FINISHED`
with the script consumed. -/
theorem readlines_lineScript (ls : List String) (eol pr : String) (heol : eol ≠ "") :
    readlines ⟨false, lineScript ls eol pr⟩ =
      (ls.map (fun l => l ++ eol) ++ [EOF], ⟨true, []⟩) := by
  induction ls with
  | nil =>
    rw [readlines_eq]
    simp [readline, clientExpect, lineScript, EOF]
  | cons l tl ih =>
    have hl : l ++ eol ≠ "" := append_ne_empty_of_right_ne_empty l eol heol
    rw [readlines_eq]
    have hr : readline ⟨false, lineScript (l :: tl) eol pr⟩ =
        (l ++ eol, ⟨false, lineScript tl eol pr⟩) := by
      simp [readline, clientExpect, lineScript]
    rw [hr]
    simp only [EOF] at hl ⊢
    rw [if_neg hl, ih]
    simp [EOF]

end Apcommand

namespace Apcommand

/--
C1: for every combination of set/unset PATH addition, LIBRARY-PATH addition
and command-prefix (each set at most once to a non-empty value or left
unset), the assembled prefix read off the connection equals the ordered
concatenation PATH-part ++ LIBRARY-PATH-part ++ command-prefix-part, where
an unset part contributes the empty string, a PATH addition `V` contributes
exactly `"PATH=V:$PATH;"` and a LIBRARY-PATH addition `W` contributes
exactly `"export LD_LIBRARY_PATH=W:$LD_LIBRARY_PATH;"`.
-/
theorem prefix_assembly_concat (pv lv cv : Option String)
    (hc : ∀ s, cv = some s → s ≠ "") :
    ((applySettings pv lv cv).getPfx).1 = pathPart pv ++ libPart lv ++ cmdPart cv := by
  cases cv with
  | none =>
    cases pv <;> cases lv <;>
      simp [applySettings, Conn.init, Conn.setPath, Conn.setLibraryPath, Conn.setCmdPfx,
        Conn.getPfx, Conn.getPath, Conn.getLibraryPath, Conn.getCmdPfx,
        pathPart, libPart, cmdPart, EMPTY_STRING, SPACE]
  | some x =>
    have hx : x.length ≠ 0 := length_ne_zero_of_ne_empty x (hc x rfl)
    cases pv <;> cases lv <;>
      simp [applySettings, Conn.init, Conn.setPath, Conn.setLibraryPath, Conn.setCmdPfx,
        Conn.getPfx, Conn.getPath, Conn.getLibraryPath, Conn.getCmdPfx,
        pathPart, libPart, cmdPart, EMPTY_STRING, SPACE, hx]

/-- Witness for C1 at PATH `"opt"`, LIBRARY-PATH `"lib"`, command-prefix `"adb shell"`. -/
theorem prefix_assembly_concat_witness :
    ((applySettings (some "opt") (some "lib") (some "adb shell")).getPfx).1 =
      "PATH=opt:$PATH;export LD_LIBRARY_PATH=lib:$LD_LIBRARY_PATH;adb shell " := by
  have h := prefix_assembly_concat (some "opt") (some "lib") (some "adb shell")
    (by intro s hs; simp at hs; subst hs; decide)
  rw [h]; decide

/--
C6 counterexample: setting the command-prefix to the empty string after a
non-empty one was set is a complete no-op — the state is unchanged, the
cached assembled prefix is not invalidated, and the next prefix read still
carries the old command-prefix contribution instead of nothing.
-/
theorem cmdPfx_clear_noop_cex :
    ((((Conn.init EMPTY_STRING none none).setCmdPfx "adb shell").getPfx).2.setCmdPfx
        EMPTY_STRING) =
      (((Conn.init EMPTY_STRING none none).setCmdPfx "adb shell").getPfx).2 ∧
    ((((Conn.init EMPTY_STRING none none).setCmdPfx "adb shell").getPfx).2.setCmdPfx
        EMPTY_STRING).pfxR = some "adb shell " ∧
    (((((Conn.init EMPTY_STRING none none).setCmdPfx "adb shell").getPfx).2.setCmdPfx
        EMPTY_STRING).getPfx).1 = "adb shell " ∧
    "adb shell " ≠ EMPTY_STRING := by
  refine ⟨by decide, by decide, by decide, by decide⟩

/--
C6 amended: the `path` and `library_path` setters always invalidate the
cached prefix (including when clearing to `None`), and the `command_prefix`
setter invalidates it for any non-empty value; but setting the
command-prefix to the empty string is a no-op that leaves the whole state —
stored command-prefix and cached assembled prefix — unchanged.
-/
theorem pfx_invalidation_amended (c : Conn) (p : Option String) (s : String)
    (hs : s ≠ "") :
    (c.setPath p).pfxR = none ∧ (c.setLibraryPath p).pfxR = none ∧
    (c.setCmdPfx s).pfxR = none ∧ c.setCmdPfx EMPTY_STRING = c := by
  refine ⟨rfl, rfl, ?_, ?_⟩
  · simp [Conn.setCmdPfx, length_ne_zero_of_ne_empty s hs]
  · simp [Conn.setCmdPfx, EMPTY_STRING]

/-- Witness for the amended C6 at a concrete connection state. -/
theorem pfx_invalidation_amended_witness :
    ((Conn.init "adb shell" (some "p") none).setPath (some "q")).pfxR = none ∧
    ((Conn.init "adb shell" (some "p") none).setLibraryPath (some "q")).pfxR = none ∧
    ((Conn.init "adb shell" (some "p") none).setCmdPfx "sudo").pfxR = none ∧
    (Conn.init "adb shell" (some "p") none).setCmdPfx EMPTY_STRING =
      Conn.init "adb shell" (some "p") none :=
  pfx_invalidation_amended (Conn.init "adb shell" (some "p") none) (some "q") "sudo"
    (by decide)

/--
C7: dispatching a named command through attribute lookup and calling the
channel directly with `(command, arguments, timeout)` produce the same
result, both going through the single forwarding routine that hands
`assembledPrefix ++ commandName` with the given arguments and timeout to
the session exec method `_main`.
-/
theorem dispatch_equivalence {α : Type} (main : String → String → Option Nat → α)
    (c : Conn) (command arguments : String) (timeout : Option Nat) :
    (∃ f, getattrDispatch main c command = Except.ok f ∧
        f arguments timeout = dunderCall main c command arguments timeout) ∧
    dunderCall main c command arguments timeout =
      (main ((c.getPfx).1 ++ command) arguments timeout, (c.getPfx).2) :=
  ⟨⟨fun a t => procedureCall main c command a t, rfl, rfl⟩, rfl⟩

/--
C9: attribute lookup for any name that has no real attribute never fails —
`__getattr__` always returns a callable, and calling it forwards the
attribute name as a remote command with the assembled prefix prepended.
-/
theorem getattr_always_callable {α : Type} (main : String → String → Option Nat → α)
    (c : Conn) (name : String) :
    ∃ f, getattrDispatch main c name = Except.ok f ∧
      ∀ arguments timeout, f arguments timeout =
        (main ((c.getPfx).1 ++ name) arguments timeout, (c.getPfx).2) :=
  ⟨fun a t => procedureCall main c name a t, rfl, fun _ _ => rfl⟩

/--
C10: the command text handed to the session exec primitive is exactly the
prefixed command, one space, then the arguments; with empty arguments the
text is the prefixed command followed by a single trailing space.
-/
theorem exec_text_spacer (c : Conn) (command arguments : String)
    (timeout : Option Nat) :
    (telnetExecText c command arguments timeout).1 =
      (c.getPfx).1 ++ command ++ " " ++ arguments ∧
    (telnetExecText c command EMPTY_STRING timeout).1 =
      (c.getPfx).1 ++ command ++ " " := by
  constructor
  · rfl
  · show ((c.getPfx).1 ++ command ++ " ") ++ "" = (c.getPfx).1 ++ command ++ " "
    exact String.ext (by simp [String.append])

/--
C2 counterexample: on a transport whose first wait elapses with no match
(the scripted `timeout` event) the very first `readline` of an ACTIVE
`TelnetOutput` does not return a transient signal distinct from the
end-of-stream sentinel — it returns the sentinel itself and flips the
source to FINISHED, because an expect match index of -1 falls into the
same branch as a prompt match.
-/
theorem readline_timeout_cex :
    (readline ⟨false, [TEvent.timeout "", TEvent.line "x\r\n",
        TEvent.promptMatch "#"]⟩).1 = EOF ∧
    (readline ⟨false, [TEvent.timeout "", TEvent.line "x\r\n",
        TEvent.promptMatch "#"]⟩).2.finished = true := by
  exact ⟨rfl, rfl⟩

/--
C2 amended: when the bounded wait elapses with no match, `readline` treats
the timeout exactly like a prompt match — it transitions the source to
FINISHED and returns the end-of-stream sentinel (whatever the `finished`
flag was, and discarding the partial text the wait read); consequently on a
scripted transport that times out before any pattern match, `readlines`
stops at the first timeout and the remaining scripted lines are lost.
-/
theorem readline_timeout_finishes (fin : Bool) (t : String) (rest : List TEvent) :
    readline ⟨fin, TEvent.timeout t :: rest⟩ = (EOF, ⟨true, rest⟩) ∧
    (readlines ⟨false, [TEvent.timeout "", TEvent.line "x\r\n",
        TEvent.promptMatch "#"]⟩).1 = [EOF] := by
  constructor
  · cases fin <;> rfl
  · rw [readlines_eq]
    simp [readline, clientExpect, EOF]

/--
C3 counterexample: a scripted transport emitting one line `"eth0 up\r\n"`
and then the prompt makes `readlines` return a two-element list — the line
followed by the end-of-stream sentinel — not "exactly those N lines and
nothing else".
-/
theorem readlines_trailing_sentinel_cex :
    (readlines ⟨false, lineScript ["eth0 up"] "\r\n" "#"⟩).1 =
      ["eth0 up\r\n", EOF] ∧
    (readlines ⟨false, lineScript ["eth0 up"] "\r\n" "#"⟩).1 ≠ ["eth0 up\r\n"] := by
  have h := readlines_lineScript ["eth0 up"] "\r\n" "#" (by decide)
  constructor
  · rw [congrArg Prod.fst h]
    rfl
  · rw [congrArg Prod.fst h]
    decide

/--
C3 amended: on a scripted transport emitting `N` lines (each followed by
the line ending) and then the prompt, a fresh `TelnetOutput`'s `readlines`
returns exactly those `N` lines in order followed by one end-of-stream
sentinel (the empty string), the source is then FINISHED, and every
`readline` call made afterwards returns the sentinel.
-/
theorem readlines_lineScript_drain (ls : List String) (eol pr : String)
    (heol : eol ≠ "") :
    readlines (TelnetOutput.init (lineScript ls eol pr)) =
      (ls.map (fun l => l ++ eol) ++ [EOF], ⟨true, []⟩) ∧
    (readlines (TelnetOutput.init (lineScript ls eol pr))).2.finished = true ∧
    readline (readlines (TelnetOutput.init (lineScript ls eol pr))).2 =
      (EOF, (readlines (TelnetOutput.init (lineScript ls eol pr))).2) := by
  have h := readlines_lineScript ls eol pr heol
  simp only [TelnetOutput.init]
  refine ⟨h, ?_, ?_⟩
  · rw [h]
  · rw [h]
    rfl

/-- Witness for the amended C3 on the two-line `ifconfig` script. -/
theorem readlines_lineScript_drain_witness :
    readlines (TelnetOutput.init
        (lineScript ["eth0 Link encap:Ethernet", "inet addr:10.0.0.5"] "\r\n" "#")) =
      (["eth0 Link encap:Ethernet\r\n", "inet addr:10.0.0.5\r\n", EOF],
        ⟨true, []⟩) := by
  have h := readlines_lineScript_drain
    ["eth0 Link encap:Ethernet", "inet addr:10.0.0.5"] "\r\n" "#" (by decide)
  rw [h.1]
  rfl

/--
C4 counterexample: `writeline` strips only `'\n'` characters, so
`writeline("cmd\r\n")` writes `"cmd\r\n"` while `writeline("cmd\n")` writes
`"cmd\n"` — the three calls of the claim do not all produce an identical
byte sequence.
-/
theorem writeline_cr_cex :
    writeline "cmd\r\n" = "cmd\r\n" ∧ writeline "cmd\n" = "cmd\n" ∧
    writeline "cmd\r\n" ≠ writeline "cmd\n" := by
  refine ⟨by decide, by decide, by decide⟩

/--
C4 amended: `writeline` strips the trailing `'\n'` characters of the
message (and only those) and appends exactly one `'\n'` — so
`writeline("cmd")` and `writeline("cmd\n")` coincide on `"cmd\n"`, adding a
further trailing `'\n'` to any message never changes what is written, but a
trailing `"\r\n"` keeps its carriage return: `writeline("cmd\r\n")` writes
`"cmd\r\n"`.
-/
theorem writeline_exactly_one_nl (m : String) :
    writeline "cmd" = "cmd\n" ∧ writeline "cmd\n" = "cmd\n" ∧
    writeline "cmd\r\n" = "cmd\r\n" ∧
    writeline (m ++ "\n") = writeline m := by
  refine ⟨by decide, by decide, by decide, ?_⟩
  obtain ⟨d⟩ := m
  show writeline (String.mk d ++ String.mk ['\n']) = writeline (String.mk d)
  simp [writeline, pyRstripNl, String.append]

/--
C5: a `TelnetOutput` starts ACTIVE (`finished = false`), the FINISHED state
is absorbing — once `finished` holds, every `readline` returns the
end-of-stream sentinel and leaves `finished` set, and no sequence of
`readline` calls ever reverts a FINISHED source to ACTIVE.
-/
theorem finished_monotone (events : List TEvent) (s : TelnetOutput) (n : Nat)
    (hs : s.finished = true) :
    (TelnetOutput.init events).finished = false ∧
    (readline s).1 = EOF ∧ (readline s).2.finished = true ∧
    (readlineIter n s).finished = true := by
  have step : ∀ u : TelnetOutput, u.finished = true →
      (readline u).1 = EOF ∧ (readline u).2.finished = true := by
    intro u hu
    obtain ⟨fin, evs⟩ := u
    cases hu
    cases evs with
    | nil => exact ⟨rfl, rfl⟩
    | cons e rest => cases e <;> exact ⟨rfl, rfl⟩
  refine ⟨rfl, (step s hs).1, (step s hs).2, ?_⟩
  induction n generalizing s with
  | zero => exact hs
  | succ k ih => exact ih (readline s).2 (step s hs).2

/-- Witness for C5 on a concrete FINISHED source with pending events. -/
theorem finished_monotone_witness :
    (TelnetOutput.init [TEvent.promptMatch "#"]).finished = false ∧
    (readline ⟨true, [TEvent.line "a\r\n", TEvent.line "b\r\n"]⟩).1 = EOF ∧
    (readline ⟨true, [TEvent.line "a\r\n", TEvent.line "b\r\n"]⟩).2.finished = true ∧
    (readlineIter 3 ⟨true, [TEvent.line "a\r\n", TEvent.line "b\r\n"]⟩).finished =
      true :=
  finished_monotone [TEvent.promptMatch "#"]
    ⟨true, [TEvent.line "a\r\n", TEvent.line "b\r\n"]⟩ 3 rfl

/--
A builder parameter bundle; a `none` field models an attribute the bundle
does not define at all, so that reading it raises `AttributeError`.
-/
structure Parameters where
  hostnameA : Option String
  addressA : Option String
  usernameA : Option String
  loginA : Option String
deriving Repr, DecidableEq

/-- The faults the builder getters can surface: the `ConfigurationError`
the docstrings promise, or a Python `NameError` for an unbound name. -/
inductive PyFault
  | configurationFault (msg : String)
  | nameFault (missing : String)
deriving Repr, DecidableEq

/--
`TelnetConnectionBuilder.hostname` on first read (`_hostname is None`): try
`parameters.hostname`, fall back to `parameters.address`; when both raise
`AttributeError` the source executes `raise errors.ConfigurationError(message)`,
but the name `errors` is never imported in telnetconnection.py, so what is
actually raised is a `NameError` for `errors`, not a Configuration fault.
-/
def builderHostname (ps : Parameters) : Except PyFault String :=
  match ps.hostnameA with
  | some h => .ok h
  | none =>
    match ps.addressA with
    | some a => .ok a
    | none => .error (.nameFault "errors")

/--
`TelnetConnectionBuilder.username` on first read: try `parameters.username`,
fall back to `parameters.login`; when both raise `AttributeError` the
source executes `raise errors.ConfigurationError(...)` with the same unbound
`errors` name, so a `NameError` is raised instead of the promised
Configuration fault.
-/
def builderUsername (ps : Parameters) : Except PyFault String :=
  match ps.usernameA with
  | some u => .ok u
  | none =>
    match ps.loginA with
    | some l => .ok l
    | none => .error (.nameFault "errors")

/--
C8: reading `hostname` (resp. `username`) on a bundle missing the field
does fail, but with a `NameError` for the unbound module name `errors`
rather than the Configuration fault naming the field that the docstrings
promise; a bundle that supplies the field (directly or through its
`address`/`login` fallback) never faults.
-/
theorem builder_missing_field_name_fault :
    builderHostname ⟨none, none, some "root", some "root"⟩ =
      .error (.nameFault "errors") ∧
    builderUsername ⟨some "10.0.0.1", some "10.0.0.1", none, none⟩ =
      .error (.nameFault "errors") ∧
    (∀ msg, builderHostname ⟨none, none, some "root", some "root"⟩ ≠
      .error (.configurationFault msg)) ∧
    builderHostname ⟨some "10.0.0.1", none, none, none⟩ = .ok "10.0.0.1" ∧
    builderUsername ⟨none, none, none, some "admin"⟩ = .ok "admin" := by
  refine ⟨rfl, rfl, ?_, rfl, rfl⟩
  intro msg h
  simp [builderHostname] at h

end Apcommand
